import Mathlib

/-!
Verification of the geometry and state-update core of the Chitaliya Jewelry
Branding Studio (src/src/App.tsx).

JavaScript numbers are modelled as exact rationals (ℚ): every arithmetic
operation appearing in the modelled code (multiplication, subtraction,
division, `Math.min`/`Math.max`) is exact on the integer-valued inputs the
application feeds it, with the one caveat that JavaScript division by zero
yields NaN/Infinity while ℚ division by zero yields 0; the theorems touching
that case state it explicitly.
-/

/-- Mirror of the `ImageData` interface fields relevant to geometry:
natural `width` and `height` of a decoded image. -/
structure ImageData where
  width : ℚ
  height : ℚ
deriving DecidableEq, Repr

/-- Mirror of the `LogoSettings` interface. `position` is a `string` in the
source, so it is a `String` here. -/
structure LogoSettings where
  x : ℚ
  y : ℚ
  width : ℚ
  height : ℚ
  opacity : ℚ
  sizePercentage : ℚ
  margin : ℚ
  position : String
deriving DecidableEq, Repr

/-- The initial `logoSettings` React state (App.tsx lines 27–36). -/
def initialLogoSettings : LogoSettings :=
  { x := 0, y := 0, width := 100, height := 100, opacity := 100,
    sizePercentage := 15, margin := 20, position := "TR" }

/-- The application state the claims are about: the two image slots
(`useState<ImageData | null>`), the settings, and the processing flag. -/
structure AppState where
  jewelryImage : Option ImageData
  logoImage : Option ImageData
  logoSettings : LogoSettings
  isProcessing : Bool
deriving DecidableEq, Repr

/-- The initial application state: no images, default settings, not busy. -/
def initialAppState : AppState :=
  { jewelryImage := none, logoImage := none,
    logoSettings := initialLogoSettings, isProcessing := false }

/-- The pre-clamp `switch` body of `calculatePositionFromPreset`
(App.tsx lines 71–108): raw (x, y) for a preset token. The TS `switch` is on
a value cast from `string`; a token outside the nine cases leaves the
initialisation `x = 0, y = 0` in place, which is the final `else`. -/
def rawPresetPosition (preset : String) (jewelryWidth jewelryHeight logoWidth logoHeight margin : ℚ) : ℚ × ℚ :=
  if preset = "TL" then (margin, margin)
  else if preset = "TC" then ((jewelryWidth - logoWidth) / 2, margin)
  else if preset = "TR" then (jewelryWidth - logoWidth - margin, margin)
  else if preset = "CL" then (margin, (jewelryHeight - logoHeight) / 2)
  else if preset = "C" then ((jewelryWidth - logoWidth) / 2, (jewelryHeight - logoHeight) / 2)
  else if preset = "CR" then (jewelryWidth - logoWidth - margin, (jewelryHeight - logoHeight) / 2)
  else if preset = "BL" then (margin, jewelryHeight - logoHeight - margin)
  else if preset = "BC" then ((jewelryWidth - logoWidth) / 2, jewelryHeight - logoHeight - margin)
  else if preset = "BR" then (jewelryWidth - logoWidth - margin, jewelryHeight - logoHeight - margin)
  else (0, 0)

/-- `calculatePositionFromPreset` (App.tsx lines 68–111): the raw preset
anchor clamped by `Math.max(0, Math.min(·, jewelryWidth - logoWidth))` in x
and `Math.max(0, Math.min(·, jewelryHeight - logoHeight))` in y. -/
def calculatePositionFromPreset (preset : String) (jewelryWidth jewelryHeight logoWidth logoHeight margin : ℚ) : ℚ × ℚ :=
  let p := rawPresetPosition preset jewelryWidth jewelryHeight logoWidth logoHeight margin
  (max 0 (min p.1 (jewelryWidth - logoWidth)), max 0 (min p.2 (jewelryHeight - logoHeight)))

/-- `updateLogoPosition` (App.tsx lines 113–129): no-op unless both images
are present; otherwise derives logo width from the jewelry width and
`sizePercentage`, derives height by the logo's aspect ratio, resolves the
preset position, and stores preset, x, y, width, height. -/
def updateLogoPosition (st : AppState) (preset : String) : AppState :=
  match st.jewelryImage, st.logoImage with
  | some jewelry, some logo =>
    let logoWidth := jewelry.width * st.logoSettings.sizePercentage / 100
    let logoHeight := logo.height * logoWidth / logo.width
    let p := calculatePositionFromPreset preset jewelry.width jewelry.height
      logoWidth logoHeight st.logoSettings.margin
    { st with logoSettings :=
      { st.logoSettings with
        position := preset, x := p.1, y := p.2,
        width := logoWidth, height := logoHeight } }
  | _, _ => st

/-- `updateLogoSize` (App.tsx lines 131–148): no-op unless both images are
present; otherwise derives width/height from the new percentage, re-resolves
the position from the currently stored preset, and stores percentage,
width, height, x, y. -/
def updateLogoSize (st : AppState) (percentage : ℚ) : AppState :=
  match st.jewelryImage, st.logoImage with
  | some jewelry, some logo =>
    let logoWidth := jewelry.width * percentage / 100
    let logoHeight := logo.height * logoWidth / logo.width
    let p := calculatePositionFromPreset st.logoSettings.position jewelry.width jewelry.height
      logoWidth logoHeight st.logoSettings.margin
    { st with logoSettings :=
      { st.logoSettings with
        sizePercentage := percentage,
        width := logoWidth, height := logoHeight,
        x := p.1, y := p.2 } }
  | _, _ => st

/-- `updateMargin` (App.tsx lines 150–162): no-op unless both images are
present; otherwise re-resolves the position from the stored preset with the
stored width/height and the new margin. -/
def updateMargin (st : AppState) (margin : ℚ) : AppState :=
  match st.jewelryImage, st.logoImage with
  | some jewelry, some _ =>
    let p := calculatePositionFromPreset st.logoSettings.position jewelry.width jewelry.height
      st.logoSettings.width st.logoSettings.height margin
    { st with logoSettings :=
      { st.logoSettings with margin := margin, x := p.1, y := p.2 } }
  | _, _ => st

/-- The opacity slider `onChange` handler (App.tsx line 488):
`setLogoSettings(prev => ({ ...prev, opacity }))`. -/
def setOpacity (st : AppState) (opacity : ℚ) : AppState :=
  { st with logoSettings := { st.logoSettings with opacity := opacity } }

/-- Which upload slot a file is destined for (the `'jewelry' | 'logo'`
argument of `handleFileUpload`). -/
inductive UploadType where
  | jewelry
  | logo
deriving DecidableEq, Repr

/-- The acceptance test of `handleFileUpload` (App.tsx line 165): the ONLY
validation performed is `file.type.startsWith('image/')`; the decoded
dimensions are never inspected. The prefix test is embedded at the
character-list level so it is computable by structural recursion. -/
def acceptsUpload (mimeType : String) : Bool :=
  "image/".data.isPrefixOf mimeType.data

/-- `handleFileUpload` (App.tsx lines 164–190), with the asynchronous decode
collapsed: a rejected MIME type leaves the state unchanged (only an alert is
shown); an accepted file stores its decoded dimensions in the chosen slot. -/
def handleFileUpload (st : AppState) (mimeType : String) (t : UploadType) (img : ImageData) : AppState :=
  if acceptsUpload mimeType then
    match t with
    | .jewelry => { st with jewelryImage := some img }
    | .logo => { st with logoImage := some img }
  else st

/-- `maxWidth` of the preview scaler (App.tsx line 248). -/
def previewMaxWidth : ℚ := 400

/-- The preview scale (App.tsx line 249):
`Math.min(maxWidth / sourceCanvas.width, maxWidth / sourceCanvas.height)`. -/
def previewScale (w h : ℚ) : ℚ :=
  min (previewMaxWidth / w) (previewMaxWidth / h)

/-- `previewWidth` (App.tsx line 250). -/
def previewWidth (w h : ℚ) : ℚ := w * previewScale w h

/-- `previewHeight` (App.tsx line 251). -/
def previewHeight (w h : ℚ) : ℚ := h * previewScale w h

/-- The export-relevant observable state: the `isProcessing` flag, the number
of downloads triggered, and the number of errors surfaced to the user. -/
structure ExportState where
  isProcessing : Bool
  downloadsTriggered : Nat
  errorsReported : Nat
deriving DecidableEq, Repr

/-- The synchronous part of `downloadImage` (App.tsx line 262):
`setIsProcessing(true)` before `toBlob` is invoked. -/
def downloadImageStart (s : ExportState) : ExportState :=
  { s with isProcessing := true }

/-- The `toBlob` callback of `downloadImage` (App.tsx lines 264–276):
if a blob is produced the download is triggered; in BOTH branches the only
other effect is `setIsProcessing(false)`. No code path reports an error
(the only `alert` in the application is the non-image-file one). -/
def downloadImageFinish (s : ExportState) (blobPresent : Bool) : ExportState :=
  { isProcessing := false,
    downloadsTriggered :=
      if blobPresent then s.downloadsTriggered + 1 else s.downloadsTriggered,
    errorsReported := s.errorsReported }

/-- The download button's enablement (App.tsx line 550):
`disabled={isProcessing}`. -/
def exportButtonEnabled (s : ExportState) : Bool :=
  !s.isProcessing

/-- The nine preset tokens of `type PositionPreset` (App.tsx line 22). -/
def presetTokens : List String :=
  ["TL", "TC", "TR", "CL", "C", "CR", "BL", "BC", "BR"]

/-- Reachable application states: the initial state, and closure under every
operation of the component that touches `logoSettings`. Preset buttons and
the reset button pass a `PositionPreset`-typed token; the image-arrival
effect (App.tsx lines 283–287) replays the stored `position`. -/
inductive Reachable : AppState → Prop where
  | init : Reachable initialAppState
  | upload (st : AppState) (mime : String) (t : UploadType) (img : ImageData) :
      Reachable st → Reachable (handleFileUpload st mime t img)
  | presetButton (st : AppState) (p : String) (hp : p ∈ presetTokens) :
      Reachable st → Reachable (updateLogoPosition st p)
  | sizeSlider (st : AppState) (pct : ℚ) :
      Reachable st → Reachable (updateLogoSize st pct)
  | marginSlider (st : AppState) (m : ℚ) :
      Reachable st → Reachable (updateMargin st m)
  | opacitySlider (st : AppState) (op : ℚ) :
      Reachable st → Reachable (setOpacity st op)
  | resetButton (st : AppState) :
      Reachable st → Reachable (updateLogoPosition st "TR")
  | imagesEffect (st : AppState) :
      Reachable st → Reachable (updateLogoPosition st st.logoSettings.position)

/-! ## Helper lemmas -/

theorem rawPresetPosition_TL (jw jh lw lh m : ℚ) :
    rawPresetPosition "TL" jw jh lw lh m = (m, m) := rfl

theorem rawPresetPosition_TC (jw jh lw lh m : ℚ) :
    rawPresetPosition "TC" jw jh lw lh m = ((jw - lw) / 2, m) := rfl

theorem rawPresetPosition_TR (jw jh lw lh m : ℚ) :
    rawPresetPosition "TR" jw jh lw lh m = (jw - lw - m, m) := rfl

theorem rawPresetPosition_CL (jw jh lw lh m : ℚ) :
    rawPresetPosition "CL" jw jh lw lh m = (m, (jh - lh) / 2) := rfl

theorem rawPresetPosition_C (jw jh lw lh m : ℚ) :
    rawPresetPosition "C" jw jh lw lh m = ((jw - lw) / 2, (jh - lh) / 2) := rfl

theorem rawPresetPosition_CR (jw jh lw lh m : ℚ) :
    rawPresetPosition "CR" jw jh lw lh m = (jw - lw - m, (jh - lh) / 2) := rfl

theorem rawPresetPosition_BL (jw jh lw lh m : ℚ) :
    rawPresetPosition "BL" jw jh lw lh m = (m, jh - lh - m) := rfl

theorem rawPresetPosition_BC (jw jh lw lh m : ℚ) :
    rawPresetPosition "BC" jw jh lw lh m = ((jw - lw) / 2, jh - lh - m) := rfl

theorem rawPresetPosition_BR (jw jh lw lh m : ℚ) :
    rawPresetPosition "BR" jw jh lw lh m = (jw - lw - m, jh - lh - m) := rfl

/-- The clamp `Math.max(0, Math.min(raw, ub))` is nonnegative. -/
theorem clamp_nonneg (raw ub : ℚ) : 0 ≤ max 0 (min raw ub) :=
  le_max_left 0 _

/-- The clamp `Math.max(0, Math.min(raw, ub))` is bounded by `ub` when
`ub` is nonnegative. -/
theorem clamp_le_ub (raw ub : ℚ) (h : 0 ≤ ub) : max 0 (min raw ub) ≤ ub :=
  max_le h (min_le_right _ _)

/-- The clamp collapses to `0` when the upper bound is negative. -/
theorem clamp_collapse (raw ub : ℚ) (h : ub < 0) : max 0 (min raw ub) = 0 :=
  max_eq_left (le_of_lt (lt_of_le_of_lt (min_le_right raw ub) h))

/-- Bounds of the clamped preset position, for any preset token. -/
theorem calculatePositionFromPreset_bounds (p : String) (jw jh lw lh m : ℚ) :
    0 ≤ (calculatePositionFromPreset p jw jh lw lh m).1 ∧
    0 ≤ (calculatePositionFromPreset p jw jh lw lh m).2 ∧
    (lw ≤ jw → (calculatePositionFromPreset p jw jh lw lh m).1 ≤ jw - lw) ∧
    (lh ≤ jh → (calculatePositionFromPreset p jw jh lw lh m).2 ≤ jh - lh) ∧
    (jw < lw → (calculatePositionFromPreset p jw jh lw lh m).1 = 0) ∧
    (jh < lh → (calculatePositionFromPreset p jw jh lw lh m).2 = 0) := by
  unfold calculatePositionFromPreset
  refine ⟨clamp_nonneg _ _, clamp_nonneg _ _, ?_, ?_, ?_, ?_⟩
  · intro h
    exact clamp_le_ub _ _ (by linarith)
  · intro h
    exact clamp_le_ub _ _ (by linarith)
  · intro h
    exact clamp_collapse _ _ (by linarith)
  · intro h
    exact clamp_collapse _ _ (by linarith)

/-- `updateLogoPosition` stores the requested preset, unless it is a no-op
because an image is missing. -/
theorem updateLogoPosition_position (st : AppState) (p : String) :
    (updateLogoPosition st p).logoSettings.position = p ∨
    updateLogoPosition st p = st := by
  obtain ⟨j, l, s, pr⟩ := st
  cases j with
  | none => exact Or.inr rfl
  | some jimg =>
    cases l with
    | none => exact Or.inr rfl
    | some limg => exact Or.inl rfl

/-- `updateLogoSize` never changes the stored position preset. -/
theorem updateLogoSize_position (st : AppState) (pct : ℚ) :
    (updateLogoSize st pct).logoSettings.position = st.logoSettings.position := by
  obtain ⟨j, l, s, pr⟩ := st
  cases j <;> cases l <;> rfl

/-- `updateMargin` never changes the stored position preset. -/
theorem updateMargin_position (st : AppState) (m : ℚ) :
    (updateMargin st m).logoSettings.position = st.logoSettings.position := by
  obtain ⟨j, l, s, pr⟩ := st
  cases j <;> cases l <;> rfl

/-- `handleFileUpload` never touches the settings. -/
theorem handleFileUpload_logoSettings (st : AppState) (mime : String) (t : UploadType) (img : ImageData) :
    (handleFileUpload st mime t img).logoSettings = st.logoSettings := by
  unfold handleFileUpload
  cases t <;> split <;> rfl

/-! ## Claim theorems -/

/-- C1: for every base size, logo natural size with positive natural width,
size percentage and margin, `updateLogoPosition` derives the logo width as
`baseW * sizePercentage / 100` and the logo height as
`logoNaturalH * logoWidth / logoNaturalW`, and the pre-clamp anchor of each
of the nine presets follows the stated formulas (horizontal: left → margin,
center → (baseW - logoW)/2, right → baseW - logoW - margin; vertical:
top → margin, middle → (baseH - logoH)/2, bottom → baseH - logoH - margin). -/
theorem geometry_resolver_formulas
    (baseW baseH lnW lnH : ℚ) (s : LogoSettings) (pr : Bool) (p : String)
    (_hl : 0 < lnW) :
    (updateLogoPosition ⟨some ⟨baseW, baseH⟩, some ⟨lnW, lnH⟩, s, pr⟩ p).logoSettings.width
      = baseW * s.sizePercentage / 100 ∧
    (updateLogoPosition ⟨some ⟨baseW, baseH⟩, some ⟨lnW, lnH⟩, s, pr⟩ p).logoSettings.height
      = lnH * (baseW * s.sizePercentage / 100) / lnW ∧
    rawPresetPosition "TL" baseW baseH (baseW * s.sizePercentage / 100)
        (lnH * (baseW * s.sizePercentage / 100) / lnW) s.margin
      = (s.margin, s.margin) ∧
    rawPresetPosition "TC" baseW baseH (baseW * s.sizePercentage / 100)
        (lnH * (baseW * s.sizePercentage / 100) / lnW) s.margin
      = ((baseW - baseW * s.sizePercentage / 100) / 2, s.margin) ∧
    rawPresetPosition "TR" baseW baseH (baseW * s.sizePercentage / 100)
        (lnH * (baseW * s.sizePercentage / 100) / lnW) s.margin
      = (baseW - baseW * s.sizePercentage / 100 - s.margin, s.margin) ∧
    rawPresetPosition "CL" baseW baseH (baseW * s.sizePercentage / 100)
        (lnH * (baseW * s.sizePercentage / 100) / lnW) s.margin
      = (s.margin, (baseH - lnH * (baseW * s.sizePercentage / 100) / lnW) / 2) ∧
    rawPresetPosition "C" baseW baseH (baseW * s.sizePercentage / 100)
        (lnH * (baseW * s.sizePercentage / 100) / lnW) s.margin
      = ((baseW - baseW * s.sizePercentage / 100) / 2,
         (baseH - lnH * (baseW * s.sizePercentage / 100) / lnW) / 2) ∧
    rawPresetPosition "CR" baseW baseH (baseW * s.sizePercentage / 100)
        (lnH * (baseW * s.sizePercentage / 100) / lnW) s.margin
      = (baseW - baseW * s.sizePercentage / 100 - s.margin,
         (baseH - lnH * (baseW * s.sizePercentage / 100) / lnW) / 2) ∧
    rawPresetPosition "BL" baseW baseH (baseW * s.sizePercentage / 100)
        (lnH * (baseW * s.sizePercentage / 100) / lnW) s.margin
      = (s.margin, baseH - lnH * (baseW * s.sizePercentage / 100) / lnW - s.margin) ∧
    rawPresetPosition "BC" baseW baseH (baseW * s.sizePercentage / 100)
        (lnH * (baseW * s.sizePercentage / 100) / lnW) s.margin
      = ((baseW - baseW * s.sizePercentage / 100) / 2,
         baseH - lnH * (baseW * s.sizePercentage / 100) / lnW - s.margin) ∧
    rawPresetPosition "BR" baseW baseH (baseW * s.sizePercentage / 100)
        (lnH * (baseW * s.sizePercentage / 100) / lnW) s.margin
      = (baseW - baseW * s.sizePercentage / 100 - s.margin,
         baseH - lnH * (baseW * s.sizePercentage / 100) / lnW - s.margin) :=
  ⟨rfl, rfl, rfl, rfl, rfl, rfl, rfl, rfl, rfl, rfl, rfl⟩

/-- C1 witness: the formulas evaluated at base 1000×800, logo 200×100,
default settings, preset TR. -/
theorem geometry_resolver_formulas_witness :
    (0 : ℚ) < 200 ∧
    (updateLogoPosition ⟨some ⟨1000, 800⟩, some ⟨200, 100⟩, initialLogoSettings, false⟩ "TR").logoSettings.width
      = 1000 * initialLogoSettings.sizePercentage / 100 :=
  ⟨by norm_num,
   (geometry_resolver_formulas 1000 800 200 100 initialLogoSettings false "TR" (by norm_num)).1⟩

/-- C2: for every preset token and all sizes, the clamped coordinates lie in
`[0, baseW - logoW] × [0, baseH - logoH]` whenever `logoW ≤ baseW` and
`logoH ≤ baseH`; and when the logo exceeds the base in a dimension the clamp
`max(0, min(raw, upperBound))` collapses that coordinate to `0`. -/
theorem resolved_position_clamped (p : String) (jw jh lw lh m : ℚ) :
    (lw ≤ jw ∧ lh ≤ jh →
      0 ≤ (calculatePositionFromPreset p jw jh lw lh m).1 ∧
      (calculatePositionFromPreset p jw jh lw lh m).1 ≤ jw - lw ∧
      0 ≤ (calculatePositionFromPreset p jw jh lw lh m).2 ∧
      (calculatePositionFromPreset p jw jh lw lh m).2 ≤ jh - lh) ∧
    (jw < lw → (calculatePositionFromPreset p jw jh lw lh m).1 = 0) ∧
    (jh < lh → (calculatePositionFromPreset p jw jh lw lh m).2 = 0) := by
  obtain ⟨h1, h2, h3, h4, h5, h6⟩ := calculatePositionFromPreset_bounds p jw jh lw lh m
  exact ⟨fun h => ⟨h1, h3 h.1, h2, h4 h.2⟩, h5, h6⟩

/-- C2 witness: concrete in-range case (preset C, base 100×100, logo 50×40,
margin 10) and concrete collapse case (logo wider than the base). -/
theorem resolved_position_clamped_witness :
    (0 ≤ (calculatePositionFromPreset "C" 100 100 50 40 10).1 ∧
     (calculatePositionFromPreset "C" 100 100 50 40 10).1 ≤ 100 - 50 ∧
     0 ≤ (calculatePositionFromPreset "C" 100 100 50 40 10).2 ∧
     (calculatePositionFromPreset "C" 100 100 50 40 10).2 ≤ 100 - 40) ∧
    (calculatePositionFromPreset "TL" 100 100 120 40 10).1 = 0 :=
  ⟨(resolved_position_clamped "C" 100 100 50 40 10).1 ⟨by norm_num, by norm_num⟩,
   (resolved_position_clamped "TL" 100 100 120 40 10).2.1 (by norm_num)⟩

/-- C5: base 1000×800, logo 200×100, sizePercentage 15, margin 20, preset TR
resolve to logo width 150, height 75, anchor (830, 20). -/
theorem scenario_TR_1000x800 :
    (updateLogoPosition ⟨some ⟨1000, 800⟩, some ⟨200, 100⟩, initialLogoSettings, false⟩ "TR").logoSettings.width = 150 ∧
    (updateLogoPosition ⟨some ⟨1000, 800⟩, some ⟨200, 100⟩, initialLogoSettings, false⟩ "TR").logoSettings.height = 75 ∧
    (updateLogoPosition ⟨some ⟨1000, 800⟩, some ⟨200, 100⟩, initialLogoSettings, false⟩ "TR").logoSettings.x = 830 ∧
    (updateLogoPosition ⟨some ⟨1000, 800⟩, some ⟨200, 100⟩, initialLogoSettings, false⟩ "TR").logoSettings.y = 20 := by
  norm_num [updateLogoPosition, calculatePositionFromPreset, rawPresetPosition_TR,
    initialLogoSettings]

/-- Characterisation of `updateLogoPosition` on a state with both images. -/
theorem updateLogoPosition_eq (baseW baseH lnW lnH : ℚ) (s : LogoSettings) (pr : Bool) (p : String) :
    updateLogoPosition ⟨some ⟨baseW, baseH⟩, some ⟨lnW, lnH⟩, s, pr⟩ p =
    ⟨some ⟨baseW, baseH⟩, some ⟨lnW, lnH⟩,
     { s with
       position := p,
       x := (calculatePositionFromPreset p baseW baseH (baseW * s.sizePercentage / 100)
              (lnH * (baseW * s.sizePercentage / 100) / lnW) s.margin).1,
       y := (calculatePositionFromPreset p baseW baseH (baseW * s.sizePercentage / 100)
              (lnH * (baseW * s.sizePercentage / 100) / lnW) s.margin).2,
       width := baseW * s.sizePercentage / 100,
       height := lnH * (baseW * s.sizePercentage / 100) / lnW }, pr⟩ := rfl

/-- Characterisation of `updateLogoSize` on a state with both images. -/
theorem updateLogoSize_eq (baseW baseH lnW lnH : ℚ) (s : LogoSettings) (pr : Bool) (pct : ℚ) :
    updateLogoSize ⟨some ⟨baseW, baseH⟩, some ⟨lnW, lnH⟩, s, pr⟩ pct =
    ⟨some ⟨baseW, baseH⟩, some ⟨lnW, lnH⟩,
     { s with
       sizePercentage := pct,
       x := (calculatePositionFromPreset s.position baseW baseH (baseW * pct / 100)
              (lnH * (baseW * pct / 100) / lnW) s.margin).1,
       y := (calculatePositionFromPreset s.position baseW baseH (baseW * pct / 100)
              (lnH * (baseW * pct / 100) / lnW) s.margin).2,
       width := baseW * pct / 100,
       height := lnH * (baseW * pct / 100) / lnW }, pr⟩ := rfl

/-- C3 counterexample: base 1000×800, logo natural size 1×1000 (accepted by
the upload path), default sizePercentage 15 and margin 20, preset TR: the
derived height is 150000, the clamp collapses y to 0, and the rectangle is
NOT contained in the base: y + height = 150000 > 800. -/
theorem rect_containment_counterexample :
    (updateLogoPosition ⟨some ⟨1000, 800⟩, some ⟨1, 1000⟩, initialLogoSettings, false⟩ "TR").logoSettings.y +
      (updateLogoPosition ⟨some ⟨1000, 800⟩, some ⟨1, 1000⟩, initialLogoSettings, false⟩ "TR").logoSettings.height
      = 150000 ∧
    ¬ ((updateLogoPosition ⟨some ⟨1000, 800⟩, some ⟨1, 1000⟩, initialLogoSettings, false⟩ "TR").logoSettings.y +
       (updateLogoPosition ⟨some ⟨1000, 800⟩, some ⟨1, 1000⟩, initialLogoSettings, false⟩ "TR").logoSettings.height
       ≤ 800) := by
  norm_num [updateLogoPosition, calculatePositionFromPreset, rawPresetPosition_TR,
    initialLogoSettings]

/-- C3 amended: for `updateLogoPosition` and `updateLogoSize` on any state
with both images present, a nonnegative base width and a size percentage in
[0, 100], the derived rectangle satisfies x ≥ 0, y ≥ 0 and
x + width ≤ baseWidth; the vertical containment y + height ≤ baseHeight
holds whenever the derived height does not exceed baseHeight (the
counterexample shows it can fail otherwise, since only x and y — not the
dimensions — are clamped). -/
theorem rect_containment_amended
    (baseW baseH lnW lnH : ℚ) (s : LogoSettings) (pr : Bool) (p : String) (pct : ℚ)
    (hW : 0 ≤ baseW) (_hs : 0 ≤ s.sizePercentage) (hs100 : s.sizePercentage ≤ 100)
    (_hq : 0 ≤ pct) (hq100 : pct ≤ 100) :
    (0 ≤ (updateLogoPosition ⟨some ⟨baseW, baseH⟩, some ⟨lnW, lnH⟩, s, pr⟩ p).logoSettings.x ∧
     0 ≤ (updateLogoPosition ⟨some ⟨baseW, baseH⟩, some ⟨lnW, lnH⟩, s, pr⟩ p).logoSettings.y ∧
     (updateLogoPosition ⟨some ⟨baseW, baseH⟩, some ⟨lnW, lnH⟩, s, pr⟩ p).logoSettings.x +
       (updateLogoPosition ⟨some ⟨baseW, baseH⟩, some ⟨lnW, lnH⟩, s, pr⟩ p).logoSettings.width ≤ baseW ∧
     ((updateLogoPosition ⟨some ⟨baseW, baseH⟩, some ⟨lnW, lnH⟩, s, pr⟩ p).logoSettings.height ≤ baseH →
      (updateLogoPosition ⟨some ⟨baseW, baseH⟩, some ⟨lnW, lnH⟩, s, pr⟩ p).logoSettings.y +
        (updateLogoPosition ⟨some ⟨baseW, baseH⟩, some ⟨lnW, lnH⟩, s, pr⟩ p).logoSettings.height ≤ baseH)) ∧
    (0 ≤ (updateLogoSize ⟨some ⟨baseW, baseH⟩, some ⟨lnW, lnH⟩, s, pr⟩ pct).logoSettings.x ∧
     0 ≤ (updateLogoSize ⟨some ⟨baseW, baseH⟩, some ⟨lnW, lnH⟩, s, pr⟩ pct).logoSettings.y ∧
     (updateLogoSize ⟨some ⟨baseW, baseH⟩, some ⟨lnW, lnH⟩, s, pr⟩ pct).logoSettings.x +
       (updateLogoSize ⟨some ⟨baseW, baseH⟩, some ⟨lnW, lnH⟩, s, pr⟩ pct).logoSettings.width ≤ baseW ∧
     ((updateLogoSize ⟨some ⟨baseW, baseH⟩, some ⟨lnW, lnH⟩, s, pr⟩ pct).logoSettings.height ≤ baseH →
      (updateLogoSize ⟨some ⟨baseW, baseH⟩, some ⟨lnW, lnH⟩, s, pr⟩ pct).logoSettings.y +
        (updateLogoSize ⟨some ⟨baseW, baseH⟩, some ⟨lnW, lnH⟩, s, pr⟩ pct).logoSettings.height ≤ baseH)) := by
  rw [updateLogoPosition_eq, updateLogoSize_eq]
  simp only
  have hw1 : baseW * s.sizePercentage / 100 ≤ baseW := by
    have := mul_le_mul_of_nonneg_left hs100 hW
    linarith
  have hw2 : baseW * pct / 100 ≤ baseW := by
    have := mul_le_mul_of_nonneg_left hq100 hW
    linarith
  obtain ⟨a1, a2, a3, a4, -, -⟩ := calculatePositionFromPreset_bounds p baseW baseH
    (baseW * s.sizePercentage / 100) (lnH * (baseW * s.sizePercentage / 100) / lnW) s.margin
  obtain ⟨b1, b2, b3, b4, -, -⟩ := calculatePositionFromPreset_bounds s.position baseW baseH
    (baseW * pct / 100) (lnH * (baseW * pct / 100) / lnW) s.margin
  refine ⟨⟨a1, a2, ?_, fun hh => ?_⟩, ⟨b1, b2, ?_, fun hh => ?_⟩⟩
  · have := a3 hw1; linarith
  · have := a4 hh; linarith
  · have := b3 hw2; linarith
  · have := b4 hh; linarith

/-- C3 amended witness: base 1000×800, logo 200×100, default settings,
preset TR, new percentage 30. -/
theorem rect_containment_amended_witness :
    0 ≤ (updateLogoPosition ⟨some ⟨1000, 800⟩, some ⟨200, 100⟩, initialLogoSettings, false⟩ "TR").logoSettings.x ∧
    0 ≤ (updateLogoPosition ⟨some ⟨1000, 800⟩, some ⟨200, 100⟩, initialLogoSettings, false⟩ "TR").logoSettings.y ∧
    (updateLogoPosition ⟨some ⟨1000, 800⟩, some ⟨200, 100⟩, initialLogoSettings, false⟩ "TR").logoSettings.x +
      (updateLogoPosition ⟨some ⟨1000, 800⟩, some ⟨200, 100⟩, initialLogoSettings, false⟩ "TR").logoSettings.width ≤ 1000 :=
  have h := rect_containment_amended 1000 800 200 100 initialLogoSettings false "TR" 30
    (by norm_num) (by norm_num [initialLogoSettings]) (by norm_num [initialLogoSettings])
    (by norm_num) (by norm_num)
  ⟨h.1.1, h.1.2.1, h.1.2.2.1⟩

/-- C4: the upload path accepts a logo whose decoded natural width is 0 (its
only check is the MIME prefix `image/`), and `updateLogoSize` then evaluates
the aspect-ratio division with that zero denominator and updates the state
instead of rejecting — in the exact rational model the height evaluates to
`100 * 200 / 0 = 0`, where JavaScript produces `NaN`. No
`DegenerateGeometryKind` rejection exists in the code. -/
theorem zero_width_logo_not_rejected :
    (handleFileUpload ⟨some ⟨1000, 800⟩, none, initialLogoSettings, false⟩ "image/png" .logo ⟨0, 100⟩).logoImage
      = some ⟨0, 100⟩ ∧
    (updateLogoSize (handleFileUpload ⟨some ⟨1000, 800⟩, none, initialLogoSettings, false⟩ "image/png" .logo ⟨0, 100⟩) 20).logoSettings.sizePercentage = 20 ∧
    (updateLogoSize (handleFileUpload ⟨some ⟨1000, 800⟩, none, initialLogoSettings, false⟩ "image/png" .logo ⟨0, 100⟩) 20).logoSettings.width = 200 ∧
    (updateLogoSize (handleFileUpload ⟨some ⟨1000, 800⟩, none, initialLogoSettings, false⟩ "image/png" .logo ⟨0, 100⟩) 20).logoSettings.height = 100 * 200 / 0 := by
  have hacc : acceptsUpload "image/png" = true := by decide
  norm_num [handleFileUpload, hacc, updateLogoSize, calculatePositionFromPreset,
    initialLogoSettings]

/-- C7: while an export is in flight the download button is disabled, and
when the encode step yields no blob the `toBlob` callback clears the
processing flag but surfaces NO error to the user (the code violates the
claim's reporting requirement; the model counts every user-visible error
report and the count stays 0). -/
theorem export_failure_clears_flag_silently :
    exportButtonEnabled (downloadImageStart ⟨false, 0, 0⟩) = false ∧
    (downloadImageFinish (downloadImageStart ⟨false, 0, 0⟩) false).isProcessing = false ∧
    (downloadImageFinish (downloadImageStart ⟨false, 0, 0⟩) false).downloadsTriggered = 0 ∧
    (downloadImageFinish (downloadImageStart ⟨false, 0, 0⟩) false).errorsReported = 0 :=
  ⟨rfl, rfl, rfl, rfl⟩

/-- C8: the opacity handler changes only the `opacity` field; every other
settings field, both image slots and the processing flag are untouched, so
no rect recomputation occurs. -/
theorem opacity_change_only_opacity (st : AppState) (op : ℚ) :
    (setOpacity st op).logoSettings.x = st.logoSettings.x ∧
    (setOpacity st op).logoSettings.y = st.logoSettings.y ∧
    (setOpacity st op).logoSettings.width = st.logoSettings.width ∧
    (setOpacity st op).logoSettings.height = st.logoSettings.height ∧
    (setOpacity st op).logoSettings.sizePercentage = st.logoSettings.sizePercentage ∧
    (setOpacity st op).logoSettings.margin = st.logoSettings.margin ∧
    (setOpacity st op).logoSettings.position = st.logoSettings.position ∧
    (setOpacity st op).logoSettings.opacity = op ∧
    (setOpacity st op).jewelryImage = st.jewelryImage ∧
    (setOpacity st op).logoImage = st.logoImage ∧
    (setOpacity st op).isProcessing = st.isProcessing :=
  ⟨rfl, rfl, rfl, rfl, rfl, rfl, rfl, rfl, rfl, rfl, rfl⟩

/-- C10: when either image slot is empty, `updateLogoPosition`,
`updateLogoSize` and `updateMargin` return the state unchanged. -/
theorem missing_image_noop (st : AppState)
    (h : st.jewelryImage = none ∨ st.logoImage = none)
    (p : String) (pct m : ℚ) :
    updateLogoPosition st p = st ∧ updateLogoSize st pct = st ∧ updateMargin st m = st := by
  obtain ⟨j, l, s, pr⟩ := st
  cases j with
  | none => cases l <;> exact ⟨rfl, rfl, rfl⟩
  | some jimg =>
    cases l with
    | none => exact ⟨rfl, rfl, rfl⟩
    | some limg => rcases h with h | h <;> simp at h

/-- C10 witness: the initial state has no images, so all three operations
leave it unchanged. -/
theorem missing_image_noop_witness :
    updateLogoPosition initialAppState "TL" = initialAppState ∧
    updateLogoSize initialAppState 30 = initialAppState ∧
    updateMargin initialAppState 5 = initialAppState :=
  missing_image_noop initialAppState (Or.inl rfl) "TL" 30 5

/-- C6: for positive source dimensions the preview scale is
`min(maxDim / w, maxDim / h)`, the preview dimensions are exactly
`w * scale` and `h * scale` (exact rational arithmetic; the browser's
integer coercion is the only rounding), the larger preview dimension equals
`maxDim` exactly, and for a 100×100 source (smaller than `maxDim = 400`)
the scale is 4 > 1, so no upscale cap exists. -/
theorem preview_scaler_fits (w h : ℚ) (hw : 0 < w) (hh : 0 < h) :
    previewScale w h = min (previewMaxWidth / w) (previewMaxWidth / h) ∧
    previewWidth w h = w * previewScale w h ∧
    previewHeight w h = h * previewScale w h ∧
    max (previewWidth w h) (previewHeight w h) = previewMaxWidth ∧
    1 < previewScale 100 100 := by
  have h400 : (0 : ℚ) < previewMaxWidth := by norm_num [previewMaxWidth]
  refine ⟨rfl, rfl, rfl, ?_, by norm_num [previewScale, previewMaxWidth]⟩
  rcases le_total w h with hwh | hwh
  · have hd : previewMaxWidth / h ≤ previewMaxWidth / w :=
      div_le_div_of_nonneg_left (le_of_lt h400) hw hwh
    have hsc : previewScale w h = previewMaxWidth / h := min_eq_right hd
    have hph : previewHeight w h = previewMaxWidth := by
      rw [previewHeight, hsc, mul_div_assoc']
      exact mul_div_cancel_left₀ _ (ne_of_gt hh)
    have hpw : previewWidth w h ≤ previewHeight w h := by
      rw [previewWidth, previewHeight]
      exact mul_le_mul_of_nonneg_right hwh
        (le_of_lt (lt_min (div_pos h400 hw) (div_pos h400 hh)))
    rw [max_eq_right hpw, hph]
  · have hd : previewMaxWidth / w ≤ previewMaxWidth / h :=
      div_le_div_of_nonneg_left (le_of_lt h400) hh hwh
    have hsc : previewScale w h = previewMaxWidth / w := min_eq_left hd
    have hpw : previewWidth w h = previewMaxWidth := by
      rw [previewWidth, hsc, mul_div_assoc']
      exact mul_div_cancel_left₀ _ (ne_of_gt hw)
    have hph : previewHeight w h ≤ previewWidth w h := by
      rw [previewWidth, previewHeight]
      exact mul_le_mul_of_nonneg_right hwh
        (le_of_lt (lt_min (div_pos h400 hw) (div_pos h400 hh)))
    rw [max_eq_left hph, hpw]

/-- C6 witness: an 800×600 source is fitted so its larger preview dimension
is exactly 400. -/
theorem preview_scaler_fits_witness :
    max (previewWidth 800 600) (previewHeight 800 600) = previewMaxWidth :=
  (preview_scaler_fits 800 600 (by norm_num) (by norm_num)).2.2.2.1

/-- C9: the initial stored position is "TR", and in every reachable state
the stored position is one of the nine preset tokens — no operation ever
stores "custom" or any other string. -/
theorem position_always_preset_token :
    initialAppState.logoSettings.position = "TR" ∧
    ∀ st : AppState, Reachable st → st.logoSettings.position ∈ presetTokens := by
  refine ⟨rfl, ?_⟩
  intro st h
  induction h with
  | init => simp [initialAppState, initialLogoSettings, presetTokens]
  | upload st mime t img _ ih =>
    rw [handleFileUpload_logoSettings]
    exact ih
  | presetButton st p hp _ ih =>
    rcases updateLogoPosition_position st p with h1 | h1
    · rw [h1]; exact hp
    · rw [h1]; exact ih
  | sizeSlider st pct _ ih =>
    rw [updateLogoSize_position]
    exact ih
  | marginSlider st m _ ih =>
    rw [updateMargin_position]
    exact ih
  | opacitySlider st op _ ih => exact ih
  | resetButton st _ ih =>
    rcases updateLogoPosition_position st "TR" with h1 | h1
    · rw [h1]; simp [presetTokens]
    · rw [h1]; exact ih
  | imagesEffect st _ ih =>
    rcases updateLogoPosition_position st st.logoSettings.position with h1 | h1
    · rw [h1]; exact ih
    · rw [h1]; exact ih

/-- C9 witness: the initial state is reachable and its stored position is a
preset token. -/
theorem position_always_preset_token_witness :
    initialAppState.logoSettings.position ∈ presetTokens :=
  position_always_preset_token.2 initialAppState Reachable.init
